import Mathlib

/-!
Shallow embedding of the KiCAD MCP server board-command core.

Source files embedded here:
* `src/python/commands/board/__init__.py` — the `BoardCommands` facade: a
  document-handle reference (`_board`, an optional `pcbnew.BOARD`), four
  sub-handlers (size, layer, outline, view), a `board` property getter and
  setter, and ten delegation methods that forward to the sub-handlers.
* `src/diagnose_board_load.py` — a diagnostic script: a `sys.path` setup
  block for macOS, an import guard around `import pcbnew`, and three board
  tests.

Python objects are modelled by explicit state passing: a method that mutates
an object becomes a function returning the updated state.  Machine-level
concerns do not arise here.  `H` is the type of `pcbnew.BOARD` references
(a handle of `none` models Python `None`), `R` the type of the non-handle
state of a sub-handler, `P` the type of params mappings, `Res` the type of
operation results, `E` the type of errors raised by sub-handler operations.
-/

namespace KicadMCP

/-- State of one sub-handler (BoardSizeCommands, BoardLayerCommands,
BoardOutlineCommands or BoardViewCommands): its copy of the document-handle
reference (`board` attribute) plus its remaining, non-handle state. -/
structure SubHandler (H R : Type) where
  board : Option H
  rest : R

/-- State of the `BoardCommands` facade: its own handle reference `_board`
and the four sub-handler objects, exactly the attributes assigned in
`BoardCommands.__init__`. -/
structure BoardCommands (H R : Type) where
  _board : Option H
  size_commands : SubHandler H R
  layer_commands : SubHandler H R
  outline_commands : SubHandler H R
  view_commands : SubHandler H R

/-- Modelled from the spec: the sub-handler constructors
(`BoardSizeCommands(board)` etc., defined in size.py, layers.py, outline.py
and view.py, which are not under src) store the given handle; the spec says
each sub-handler is initialized with the initial handle.  The remaining
state is an arbitrary initial value `r`. -/
def SubHandler.init {H R : Type} (board : Option H) (r : R) : SubHandler H R :=
  { board := board, rest := r }

/-- Translation of `BoardCommands.__init__(self, board=None)`: stores the
handle and constructs the four sub-handlers, passing `board` to each. -/
def BoardCommands.init {H R : Type} (board : Option H) (rs rl ro rv : R) :
    BoardCommands H R :=
  { _board := board
    size_commands := SubHandler.init board rs
    layer_commands := SubHandler.init board rl
    outline_commands := SubHandler.init board ro
    view_commands := SubHandler.init board rv }

/-- Translation of the `board` property getter: `return self._board`.  The
state is threaded explicitly, so the getter returns the value together with
the (unchanged) facade state. -/
def BoardCommands.board {H R : Type} (bc : BoardCommands H R) :
    Option H × BoardCommands H R :=
  (bc._board, bc)

/-- Translation of the `board` property setter: assigns `self._board = value`
and then assigns `value` to the `board` attribute of each of the four
sub-handlers (the propagation loop in the source; the trailing
`logger.debug` call has no state effect). -/
def BoardCommands.setBoard {H R : Type} (bc : BoardCommands H R) (value : Option H) :
    BoardCommands H R :=
  { _board := value
    size_commands := { bc.size_commands with board := value }
    layer_commands := { bc.layer_commands with board := value }
    outline_commands := { bc.outline_commands with board := value }
    view_commands := { bc.view_commands with board := value } }

/-- The four sub-handlers, as owners of operations in the routing table. -/
inductive Owner where
  | size
  | layer
  | outline
  | view
deriving DecidableEq

/-- Modelled from the spec: the operations exposed by the external
BoardSizeCommands module (size.py is not under src).  An operation takes the
params mapping and the sub-handler state and returns the updated non-handle
state together with a result or an error; per the spec the shared document
handle is mutated only by the facade setter, never by a sub-handler
operation. -/
structure SizeOps (H R P Res E : Type) where
  set_board_size : P → SubHandler H R → R × Except E Res

/-- Modelled from the spec: the operations exposed by the external
BoardLayerCommands module (layers.py is not under src); same conventions as
`SizeOps`. -/
structure LayerOps (H R P Res E : Type) where
  add_layer : P → SubHandler H R → R × Except E Res
  set_active_layer : P → SubHandler H R → R × Except E Res
  get_layer_list : P → SubHandler H R → R × Except E Res

/-- Modelled from the spec: the operations exposed by the external
BoardOutlineCommands module (outline.py is not under src); same conventions
as `SizeOps`. -/
structure OutlineOps (H R P Res E : Type) where
  add_board_outline : P → SubHandler H R → R × Except E Res
  add_mounting_hole : P → SubHandler H R → R × Except E Res
  add_text : P → SubHandler H R → R × Except E Res

/-- Modelled from the spec: the operations exposed by the external
BoardViewCommands module (view.py is not under src); same conventions as
`SizeOps`. -/
structure ViewOps (H R P Res E : Type) where
  get_board_info : P → SubHandler H R → R × Except E Res
  get_board_2d_view : P → SubHandler H R → R × Except E Res
  get_board_extents : P → SubHandler H R → R × Except E Res

/-- The operation tables of the four external sub-handler modules, bundled. -/
structure SubOps (H R P Res E : Type) where
  size : SizeOps H R P Res E
  layer : LayerOps H R P Res E
  outline : OutlineOps H R P Res E
  view : ViewOps H R P Res E

/-- Record of one call made to a sub-handler operation: which sub-handler,
which operation name, and the params that were passed. -/
structure Call (P : Type) where
  owner : Owner
  op : String
  params : P

/-- Outcome of one facade invocation: a result, an error propagated verbatim
from the sub-handler operation, or the UnknownOperation error owned by the
facade core itself. -/
inductive InvokeResult (E Res : Type) where
  | ok : Res → InvokeResult E Res
  | err : E → InvokeResult E Res
  | unknownOperation : InvokeResult E Res
deriving DecidableEq

/-- Conversion of a sub-handler operation outcome into an invocation
outcome: a result stays a result and an error stays the same error. -/
def liftResult {E Res : Type} : Except E Res → InvokeResult E Res
  | Except.ok r => InvokeResult.ok r
  | Except.error e => InvokeResult.err e

/-- Modelled from the spec: the fixed static routing table mapping each
operation name to the sub-handler that owns it — set_board_size to size;
add_layer, set_active_layer, get_layer_list to layer; add_board_outline,
add_mounting_hole, add_text to outline; get_board_info, get_board_2d_view,
get_board_extents to view.  Written from the spec as the reference against
which `invoke` (translated from the delegation methods of the source) is
checked. -/
def routingTable (name : String) : Option Owner :=
  match name with
  | "set_board_size" => some Owner.size
  | "add_layer" => some Owner.layer
  | "set_active_layer" => some Owner.layer
  | "get_layer_list" => some Owner.layer
  | "add_board_outline" => some Owner.outline
  | "add_mounting_hole" => some Owner.outline
  | "add_text" => some Owner.outline
  | "get_board_info" => some Owner.view
  | "get_board_2d_view" => some Owner.view
  | "get_board_extents" => some Owner.view
  | _ => none

/-- Modelled from the spec: the like-named operation of the owning
sub-handler for each name in the routing table, looked up in the bundled
operation tables. -/
def likeNamedOp {H R P Res E : Type} (ops : SubOps H R P Res E) (name : String) :
    Option (P → SubHandler H R → R × Except E Res) :=
  match name with
  | "set_board_size" => some ops.size.set_board_size
  | "add_layer" => some ops.layer.add_layer
  | "set_active_layer" => some ops.layer.set_active_layer
  | "get_layer_list" => some ops.layer.get_layer_list
  | "add_board_outline" => some ops.outline.add_board_outline
  | "add_mounting_hole" => some ops.outline.add_mounting_hole
  | "add_text" => some ops.outline.add_text
  | "get_board_info" => some ops.view.get_board_info
  | "get_board_2d_view" => some ops.view.get_board_2d_view
  | "get_board_extents" => some ops.view.get_board_extents
  | _ => none

/-- The sub-handler of the facade owned by a given owner tag. -/
def subOf {H R : Type} (bc : BoardCommands H R) : Owner → SubHandler H R
  | Owner.size => bc.size_commands
  | Owner.layer => bc.layer_commands
  | Owner.outline => bc.outline_commands
  | Owner.view => bc.view_commands

/-- The facade with the non-handle state of the sub-handler owned by the
given owner tag replaced. -/
def withRestOf {H R : Type} (bc : BoardCommands H R) : Owner → R → BoardCommands H R
  | Owner.size, r => { bc with size_commands := { bc.size_commands with rest := r } }
  | Owner.layer, r => { bc with layer_commands := { bc.layer_commands with rest := r } }
  | Owner.outline, r => { bc with outline_commands := { bc.outline_commands with rest := r } }
  | Owner.view, r => { bc with view_commands := { bc.view_commands with rest := r } }

/-- Dispatch of an operation name on the facade.  Each routed arm is the
translation of the like-named delegation method of `BoardCommands` in the
source, e.g. `def add_layer(self, params): return
self.layer_commands.add_layer(params)`: it calls the like-named operation of
the owning sub-handler with `params` and returns its outcome; in-place
mutation of the sub-handler by its own operation is threaded as an update of
that one sub-handler.  The call is recorded in a trace so that theorems can
state which sub-handlers were called.  The dispatch on the name itself and
the default arm are modelled from the spec: the request router that selects
the method from the operation name is not under src, and the spec says an
unknown name fails with UnknownOperation without calling any sub-handler. -/
def invoke {H R P Res E : Type} (ops : SubOps H R P Res E) (bc : BoardCommands H R)
    (name : String) (params : P) :
    BoardCommands H R × InvokeResult E Res × List (Call P) :=
  match name with
  | "set_board_size" =>
      let out := ops.size.set_board_size params bc.size_commands
      ({ bc with size_commands := { bc.size_commands with rest := out.1 } },
       liftResult out.2, [⟨Owner.size, "set_board_size", params⟩])
  | "add_layer" =>
      let out := ops.layer.add_layer params bc.layer_commands
      ({ bc with layer_commands := { bc.layer_commands with rest := out.1 } },
       liftResult out.2, [⟨Owner.layer, "add_layer", params⟩])
  | "set_active_layer" =>
      let out := ops.layer.set_active_layer params bc.layer_commands
      ({ bc with layer_commands := { bc.layer_commands with rest := out.1 } },
       liftResult out.2, [⟨Owner.layer, "set_active_layer", params⟩])
  | "get_layer_list" =>
      let out := ops.layer.get_layer_list params bc.layer_commands
      ({ bc with layer_commands := { bc.layer_commands with rest := out.1 } },
       liftResult out.2, [⟨Owner.layer, "get_layer_list", params⟩])
  | "add_board_outline" =>
      let out := ops.outline.add_board_outline params bc.outline_commands
      ({ bc with outline_commands := { bc.outline_commands with rest := out.1 } },
       liftResult out.2, [⟨Owner.outline, "add_board_outline", params⟩])
  | "add_mounting_hole" =>
      let out := ops.outline.add_mounting_hole params bc.outline_commands
      ({ bc with outline_commands := { bc.outline_commands with rest := out.1 } },
       liftResult out.2, [⟨Owner.outline, "add_mounting_hole", params⟩])
  | "add_text" =>
      let out := ops.outline.add_text params bc.outline_commands
      ({ bc with outline_commands := { bc.outline_commands with rest := out.1 } },
       liftResult out.2, [⟨Owner.outline, "add_text", params⟩])
  | "get_board_info" =>
      let out := ops.view.get_board_info params bc.view_commands
      ({ bc with view_commands := { bc.view_commands with rest := out.1 } },
       liftResult out.2, [⟨Owner.view, "get_board_info", params⟩])
  | "get_board_2d_view" =>
      let out := ops.view.get_board_2d_view params bc.view_commands
      ({ bc with view_commands := { bc.view_commands with rest := out.1 } },
       liftResult out.2, [⟨Owner.view, "get_board_2d_view", params⟩])
  | "get_board_extents" =>
      let out := ops.view.get_board_extents params bc.view_commands
      ({ bc with view_commands := { bc.view_commands with rest := out.1 } },
       liftResult out.2, [⟨Owner.view, "get_board_extents", params⟩])
  | _ => (bc, InvokeResult.unknownOperation, [])

/-- All five copies of the document-handle reference — the facade field
`_board` and the `board` attribute of each of the four sub-handlers — equal
the given handle. -/
def allHandlesEq {H R : Type} (bc : BoardCommands H R) (h : Option H) : Prop :=
  bc._board = h ∧
  bc.size_commands.board = h ∧
  bc.layer_commands.board = h ∧
  bc.outline_commands.board = h ∧
  bc.view_commands.board = h

end KicadMCP

namespace DiagnoseBoardLoad

/-- Outcome of `import pcbnew` in the guard of diagnose_board_load.py:
either the import succeeds or it raises ImportError, the one exception the
except clause of the guard handles. -/
inductive ImportOutcome where
  | ok
  | importError
deriving DecidableEq

/-- The three board tests of the diagnostic script, in source order. -/
inductive BoardTest where
  | createBoard
  | loadBoard
  | saveReload
deriving DecidableEq

/-- Observable outcome of one run of the diagnostic script: the process
exit status and which board tests were run. -/
structure ScriptRun where
  exitStatus : Nat
  testsRun : List BoardTest
deriving DecidableEq

/-- Translation of the top level of diagnose_board_load.py after the path
setup: the import guard calls `sys.exit(1)` when `import pcbnew` raises
ImportError, so the script stops with status 1 before any test; otherwise
the three test sections run in order — each wraps its body in a
try/except that catches every exception, so each section completes — and
the script falls off the end, exiting with status 0. -/
def diagnoseBoardLoad (imp : ImportOutcome) : ScriptRun :=
  match imp with
  | ImportOutcome.importError => { exitStatus := 1, testsRun := [] }
  | ImportOutcome.ok =>
      { exitStatus := 0
        testsRun := [BoardTest.createBoard, BoardTest.loadBoard, BoardTest.saveReload] }

/-- The Python versions the path-setup block iterates over. -/
def kicadPyVersions : List String := ["3.9", "3.10", "3.11", "3.12", "3.13"]

/-- The candidate KiCad site-packages path for one Python version, the
f-string of the path-setup block. -/
def kicadSitePackages (v : String) : String :=
  "/Applications/KiCad/KiCad.app/Contents/Frameworks/Python.framework/Versions/"
    ++ v ++ "/lib/python" ++ v ++ "/site-packages"

/-- One iteration of the path-setup loop: insert the candidate path for
version `v` at the front of the path list when it exists on disk and is not
already present, else leave the list unchanged.  `pathOnDisk` abstracts
`os.path.exists`. -/
def addOneKicadPath (pathOnDisk : String → Bool) (sp : List String) (v : String) :
    List String :=
  if pathOnDisk (kicadSitePackages v) = true ∧ kicadSitePackages v ∉ sp then
    kicadSitePackages v :: sp
  else sp

/-- Translation of the path-setup block of diagnose_board_load.py: when
`sys.platform` equals darwin, iterate over the five candidate versions,
inserting each existing, not-yet-present candidate path at position 0 of
`sys.path`; on any other platform the block does nothing. -/
def addKicadPaths (platform : String) (pathOnDisk : String → Bool)
    (sysPath : List String) : List String :=
  if platform = "darwin" then
    kicadPyVersions.foldl (addOneKicadPath pathOnDisk) sysPath
  else sysPath

end DiagnoseBoardLoad

namespace KicadMCP

/-- A demonstration operation used to instantiate witness theorems: returns
the params value as the result and keeps the non-handle state. -/
def demoOp : Nat → SubHandler Nat Nat → Nat × Except Nat Nat :=
  fun p s => (s.rest, Except.ok p)

/-- A demonstration operation that fails with error 42. -/
def demoErrOp : Nat → SubHandler Nat Nat → Nat × Except Nat Nat :=
  fun _ s => (s.rest, Except.error 42)

/-- Demonstration operation tables over concrete types, used to instantiate
witness theorems; get_board_info fails, every other operation succeeds. -/
def demoOps : SubOps Nat Nat Nat Nat Nat :=
  { size := { set_board_size := demoOp }
    layer := { add_layer := demoOp, set_active_layer := demoOp, get_layer_list := demoOp }
    outline := { add_board_outline := demoOp, add_mounting_hole := demoOp, add_text := demoOp }
    view := { get_board_info := demoErrOp, get_board_2d_view := demoOp, get_board_extents := demoOp } }

/-- A demonstration facade state over concrete types, used to instantiate
witness theorems. -/
def demoBC : BoardCommands Nat Nat :=
  BoardCommands.init (some 7) 0 1 2 3

end KicadMCP

namespace KicadMCP

/-- Helper: a lifted sub-handler outcome is never the UnknownOperation
error. -/
lemma liftResult_ne_unknown {E Res : Type} (x : Except E Res) :
    liftResult x ≠ InvokeResult.unknownOperation := by
  cases x <;> simp [liftResult]

/-- Helper: the like-named operation lookup succeeds exactly on the names of
the routing table. -/
lemma likeNamed_isSome_iff {H R P Res E : Type} (ops : SubOps H R P Res E)
    (name : String) :
    (likeNamedOp ops name).isSome ↔ (routingTable name).isSome := by
  unfold likeNamedOp routingTable
  split
  any_goals simp

/-- Helper: on a routed name, `invoke` equals the forwarding described by
the routing table and the like-named operation lookup. -/
lemma invoke_routed_eq {H R P Res E : Type} (ops : SubOps H R P Res E)
    (bc : BoardCommands H R) (params : P) (name : String) (o : Owner)
    (f : P → SubHandler H R → R × Except E Res)
    (h1 : routingTable name = some o) (h2 : likeNamedOp ops name = some f) :
    invoke ops bc name params =
      (withRestOf bc o (f params (subOf bc o)).1,
       liftResult (f params (subOf bc o)).2,
       [⟨o, name, params⟩]) := by
  unfold likeNamedOp at h2
  split at h2
  all_goals cases h2
  all_goals simp [routingTable] at h1
  all_goals subst h1
  all_goals rfl

/-- Helper: on a name outside the routing table, `invoke` returns the
UnknownOperation outcome, an empty call trace and the unchanged state. -/
lemma invoke_unrouted_eq {H R P Res E : Type} (ops : SubOps H R P Res E)
    (bc : BoardCommands H R) (params : P) (name : String)
    (h : routingTable name = none) :
    invoke ops bc name params = (bc, InvokeResult.unknownOperation, []) := by
  unfold invoke
  split
  all_goals first
    | rfl
    | simp [routingTable] at h

/-- C1: after every setDocument call — in particular after each call of any
sequence of them — the facade handle and the handle of each of the four
sub-handlers all equal the handle just set, so no sub-handler retains an
earlier handle. -/
theorem setBoard_propagates_to_all {H R : Type} (bc : BoardCommands H R)
    (hs : List (Option H)) (h : Option H) :
    allHandlesEq ((hs ++ [h]).foldl BoardCommands.setBoard bc) h := by
  rw [List.foldl_append]
  exact ⟨rfl, rfl, rfl, rfl, rfl⟩

/-- C5: constructing the facade with any initial handle, absent included,
yields a state whose getter returns that handle and in which the facade and
all four sub-handlers hold exactly that handle. -/
theorem init_consistent {H R : Type} (b : Option H) (rs rl ro rv : R) :
    (BoardCommands.init b rs rl ro rv).board.1 = b ∧
    allHandlesEq (BoardCommands.init b rs rl ro rv) b :=
  ⟨rfl, rfl, rfl, rfl, rfl, rfl⟩

/-- C7: the board property getter returns the facade handle field and leaves
the whole facade state — handle, sub-handlers and all — unchanged. -/
theorem board_getter_pure {H R : Type} (bc : BoardCommands H R) :
    bc.board.1 = bc._board ∧ bc.board.2 = bc :=
  ⟨rfl, rfl⟩

/-- C8: setting the document handle twice in a row leaves exactly the state
of setting the second handle alone; setting the same handle twice equals
setting it once. -/
theorem setBoard_absorptive {H R : Type} (bc : BoardCommands H R)
    (h1 h2 : Option H) :
    (bc.setBoard h1).setBoard h2 = bc.setBoard h2 ∧
    (bc.setBoard h2).setBoard h2 = bc.setBoard h2 :=
  ⟨rfl, rfl⟩

/-- C6: no routed or unknown operation changes the facade handle or the
handle copy of any of the four sub-handlers. -/
theorem invoke_preserves_handles {H R P Res E : Type} (ops : SubOps H R P Res E)
    (bc : BoardCommands H R) (name : String) (params : P) :
    ((invoke ops bc name params).1)._board = bc._board ∧
    ((invoke ops bc name params).1).size_commands.board = bc.size_commands.board ∧
    ((invoke ops bc name params).1).layer_commands.board = bc.layer_commands.board ∧
    ((invoke ops bc name params).1).outline_commands.board = bc.outline_commands.board ∧
    ((invoke ops bc name params).1).view_commands.board = bc.view_commands.board := by
  unfold invoke
  split
  all_goals exact ⟨rfl, rfl, rfl, rfl, rfl⟩

end KicadMCP

namespace KicadMCP

/-- C2: for every name in the routing table, invoking it on the facade calls
the like-named operation of the owning sub-handler and of no other — the
call trace holds exactly one call, to the owner — passing params unchanged,
updating at most that one sub-handler, and returning the outcome of that
operation unchanged; the like-named lookup succeeds exactly on the routed
names. -/
theorem invoke_routes_to_owner {H R P Res E : Type} (ops : SubOps H R P Res E)
    (bc : BoardCommands H R) (name : String) (params : P) :
    ((likeNamedOp ops name).isSome ↔ (routingTable name).isSome) ∧
    (∀ (o : Owner) (f : P → SubHandler H R → R × Except E Res),
      routingTable name = some o → likeNamedOp ops name = some f →
      invoke ops bc name params =
        (withRestOf bc o (f params (subOf bc o)).1,
         liftResult (f params (subOf bc o)).2,
         [⟨o, name, params⟩])) :=
  ⟨likeNamed_isSome_iff ops name,
   fun o f h1 h2 => invoke_routed_eq ops bc params name o f h1 h2⟩

/-- Closed instance of C2: invoking add_layer on concrete demonstration
data produces exactly one call, to the layer sub-handler, with the params
passed through and the operation outcome returned unchanged. -/
theorem invoke_routes_to_owner_witness :
    invoke demoOps demoBC "add_layer" 5 =
      (withRestOf demoBC Owner.layer (demoOp 5 (subOf demoBC Owner.layer)).1,
       liftResult (demoOp 5 (subOf demoBC Owner.layer)).2,
       [⟨Owner.layer, "add_layer", 5⟩]) :=
  (invoke_routes_to_owner demoOps demoBC "add_layer" 5).2 Owner.layer demoOp
    (by rfl) (by rfl)

/-- C3: invoking a name outside the routing table yields the
UnknownOperation outcome, calls no sub-handler (the call trace is empty, the
state untouched), and UnknownOperation arises exactly on such names — no
routed invocation ever produces it. -/
theorem invoke_unknown_operation {H R P Res E : Type} (ops : SubOps H R P Res E)
    (bc : BoardCommands H R) (name : String) (params : P) :
    (routingTable name = none →
      invoke ops bc name params = (bc, InvokeResult.unknownOperation, [])) ∧
    ((invoke ops bc name params).2.1 = InvokeResult.unknownOperation ↔
      routingTable name = none) := by
  refine ⟨invoke_unrouted_eq ops bc params name, ?_, ?_⟩
  · intro h
    by_contra hn
    rcases Option.ne_none_iff_exists.mp hn with ⟨o, ho⟩
    have hsome : (likeNamedOp ops name).isSome :=
      (likeNamed_isSome_iff ops name).mpr (by rw [← ho]; rfl)
    rcases Option.isSome_iff_exists.mp hsome with ⟨f, hf⟩
    rw [invoke_routed_eq ops bc params name o f ho.symm hf] at h
    exact liftResult_ne_unknown _ h
  · intro h
    rw [invoke_unrouted_eq ops bc params name h]

/-- Closed instance of C3: invoking the name no_such_operation on concrete
demonstration data yields UnknownOperation with an empty call trace and the
state untouched. -/
theorem invoke_unknown_operation_witness :
    invoke demoOps demoBC "no_such_operation" 0 =
      (demoBC, InvokeResult.unknownOperation, []) :=
  (invoke_unknown_operation demoOps demoBC "no_such_operation" 0).1 (by rfl)

/-- C4: when the owning sub-handler operation of a routed name fails with an
error, the facade invocation yields that identical error — nothing is
caught, wrapped or transformed on the way to the caller. -/
theorem invoke_error_transparent {H R P Res E : Type} (ops : SubOps H R P Res E)
    (bc : BoardCommands H R) (name : String) (params : P) (o : Owner)
    (f : P → SubHandler H R → R × Except E Res) (e : E)
    (h1 : routingTable name = some o) (h2 : likeNamedOp ops name = some f)
    (h3 : (f params (subOf bc o)).2 = Except.error e) :
    (invoke ops bc name params).2.1 = InvokeResult.err e := by
  rw [invoke_routed_eq ops bc params name o f h1 h2]
  simp [h3, liftResult]

/-- Closed instance of C4: on concrete demonstration data whose
get_board_info operation fails with error 42, invoking get_board_info yields
exactly the error 42. -/
theorem invoke_error_transparent_witness :
    (invoke demoOps demoBC "get_board_info" 9).2.1 = InvokeResult.err 42 :=
  invoke_error_transparent demoOps demoBC "get_board_info" 9 Owner.view
    demoErrOp 42 (by rfl) (by rfl) (by rfl)

end KicadMCP

namespace DiagnoseBoardLoad

/-- C9: the diagnostic script exits with status 1 exactly when importing
pcbnew raises ImportError, and in that case none of the three board tests
runs. -/
theorem exit_one_iff_import_error (imp : ImportOutcome) :
    ((diagnoseBoardLoad imp).exitStatus = 1 ↔ imp = ImportOutcome.importError) ∧
    (imp = ImportOutcome.importError → (diagnoseBoardLoad imp).testsRun = []) := by
  cases imp <;> simp [diagnoseBoardLoad]

/-- Closed instance of C9: on the failing import outcome the script exits
with status 1 and runs no test. -/
theorem exit_one_iff_import_error_witness :
    (diagnoseBoardLoad ImportOutcome.importError).exitStatus = 1 ∧
    (diagnoseBoardLoad ImportOutcome.importError).testsRun = [] :=
  ⟨(exit_one_iff_import_error ImportOutcome.importError).1.mpr rfl,
   (exit_one_iff_import_error ImportOutcome.importError).2 rfl⟩

/-- Helper: any entry of the folded path list was already present or is a
candidate path that exists on disk and was absent from the original list. -/
lemma mem_foldl_addOne (pe : String → Bool) :
    ∀ (l sp : List String) (x : String),
      x ∈ l.foldl (addOneKicadPath pe) sp →
      x ∈ sp ∨ (x ∈ l.map kicadSitePackages ∧ pe x = true ∧ x ∉ sp) := by
  intro l
  induction l with
  | nil =>
    intro sp x hx
    exact Or.inl hx
  | cons v t ih =>
    intro sp x hx
    rw [List.foldl_cons] at hx
    have hsub : sp ⊆ addOneKicadPath pe sp v := by
      intro y hy
      unfold addOneKicadPath
      split
      · exact List.mem_cons_of_mem _ hy
      · exact hy
    rcases ih (addOneKicadPath pe sp v) x hx with h | ⟨hm, hp, hn⟩
    · unfold addOneKicadPath at h
      by_cases hc : pe (kicadSitePackages v) = true ∧ kicadSitePackages v ∉ sp
      · rw [if_pos hc] at h
        rcases List.mem_cons.mp h with rfl | hsp
        · refine Or.inr ⟨?_, hc.1, hc.2⟩
          rw [List.map_cons]
          exact List.mem_cons_self _ _
        · exact Or.inl hsp
      · rw [if_neg hc] at h
        exact Or.inl h
    · refine Or.inr ⟨?_, hp, fun hx0 => hn (hsub hx0)⟩
      rw [List.map_cons]
      exact List.mem_cons_of_mem _ hm

/-- Helper: the path-setup fold preserves freedom from duplicates. -/
lemma nodup_foldl_addOne (pe : String → Bool) :
    ∀ (l sp : List String), sp.Nodup → (l.foldl (addOneKicadPath pe) sp).Nodup := by
  intro l
  induction l with
  | nil =>
    intro sp h
    exact h
  | cons v t ih =>
    intro sp h
    rw [List.foldl_cons]
    apply ih
    unfold addOneKicadPath
    split
    · rename_i hc
      exact List.nodup_cons.mpr ⟨hc.2, h⟩
    · exact h

/-- C10: the path-setup block leaves sys.path unchanged on every platform
other than darwin; on darwin every entry of the resulting list was already
present or is a candidate KiCad site-packages path that exists on disk and
was not yet present; and the block never introduces a duplicate entry —
a duplicate-free sys.path stays duplicate-free. -/
theorem path_setup_spec (platform : String) (pe : String → Bool)
    (sp : List String) :
    (platform ≠ "darwin" → addKicadPaths platform pe sp = sp) ∧
    (∀ x, x ∈ addKicadPaths platform pe sp →
      x ∈ sp ∨ (x ∈ kicadPyVersions.map kicadSitePackages ∧ pe x = true ∧ x ∉ sp)) ∧
    (sp.Nodup → (addKicadPaths platform pe sp).Nodup) := by
  refine ⟨?_, ?_, ?_⟩
  · intro h
    simp [addKicadPaths, h]
  · intro x hx
    unfold addKicadPaths at hx
    split at hx
    · exact mem_foldl_addOne pe kicadPyVersions sp x hx
    · exact Or.inl hx
  · intro h
    unfold addKicadPaths
    split
    · exact nodup_foldl_addOne pe kicadPyVersions sp h
    · exact h

/-- Closed instance of C10: on a non-darwin platform the block leaves the
path list unchanged, and on darwin, starting from an empty duplicate-free
list, the result is duplicate-free. -/
theorem path_setup_spec_witness :
    addKicadPaths "linux" (fun _ => true) ["a"] = ["a"] ∧
    (addKicadPaths "darwin" (fun _ => true) []).Nodup :=
  ⟨(path_setup_spec "linux" (fun _ => true) ["a"]).1 (by decide),
   (path_setup_spec "darwin" (fun _ => true) []).2.2 List.nodup_nil⟩

end DiagnoseBoardLoad
